import Mathlib

/-
  Verification of the wallpaper-generation worker ("wall").

  The development shallowly embeds the wallpaper workflow of
  src/routes/wallpaper.ts and the aspect-ratio normalizer of the restyle
  route.  External effects (the Gemini HTTP call, the fal.ai queue calls,
  the CDN fetch) are modelled by passing their outcomes in as explicit
  values; JavaScript `undefined`/absent fields are modelled with `Option`;
  JavaScript numbers are embedded as IEEE-754 binary64 values (dyadic
  rationals with round-to-nearest-even operations) where the code does
  number arithmetic, and as `Int`/`Nat` where it only compares integers.
  Functions that perform a variable number of upstream calls return the
  call count alongside the result, so that "performs exactly one fetch"
  style properties are statable.
-/

namespace Wall

/- ------------------------------------------------------------------ -/
/- IEEE-754 binary64 arithmetic model                                  -/
/-                                                                     -/
/- The restyle route's closestAspectRatio computes with JavaScript     -/
/- numbers, i.e. IEEE-754 binary64 values.  A finite double is a       -/
/- dyadic rational m * 2^e with |m| ≤ 2^53; the model below represents -/
/- doubles this way (with unbounded exponent: every value this         -/
/- development handles is in the normal range, far from overflow and   -/
/- subnormals) and implements the operations the source uses —         -/
/- division, subtraction, Math.abs and comparison — with rounding to   -/
/- nearest, ties to even, exactly as binary64 prescribes.  Comparison  -/
/- of doubles is exact on the represented values, so it is modelled by -/
/- comparing the exact rational values.                                -/
/- ------------------------------------------------------------------ -/

/-- Fuel-based ⌊log₂ n⌋ (0 for n = 0).  The fuel bounds the recursion
depth; 256 covers every magnitude arising here. -/
def natLog2Fuel : Nat → Nat → Nat
  | 0, _ => 0
  | fuel + 1, n => if 2 ≤ n then natLog2Fuel fuel (n / 2) + 1 else 0

/-- ⌊log₂ n⌋ for the magnitudes handled by this development. -/
def natLog2 (n : Nat) : Nat := natLog2Fuel 256 n

/-- 2^k as an integer. -/
def pow2Z (k : Nat) : ℤ := Int.ofNat (2 ^ k)

/-- A finite binary64 value `m * 2^e`. -/
structure FP where
  m : ℤ
  e : ℤ
deriving DecidableEq

/-- Round the rational n/d (for d ≠ 0) to the nearest binary64 value,
ties to even: find the exponent E with 2^E ≤ |n/d| < 2^(E+1) via bit
lengths, scale to a 53-bit significand and round the integer quotient to
nearest with ties to even. -/
def fpRoundRat (n d : ℤ) : FP :=
  if n = 0 ∨ d = 0 then ⟨0, 0⟩
  else
    let neg : Bool := decide (n < 0) != decide (d < 0)
    let a : ℕ := n.natAbs
    let b : ℕ := d.natAbs
    let e0 : ℤ := (natLog2 a : ℤ) - (natLog2 b : ℤ)
    let E : ℤ :=
      if 0 ≤ e0 then (if b * 2 ^ e0.toNat ≤ a then e0 else e0 - 1)
      else (if b ≤ a * 2 ^ (-e0).toNat then e0 else e0 - 1)
    let s : ℤ := 52 - E
    let p : ℕ := if 0 ≤ s then a * 2 ^ s.toNat else a
    let q : ℕ := if 0 ≤ s then b else b * 2 ^ (-s).toNat
    let t : ℕ := p / q
    let r : ℕ := p % q
    let mAbs : ℕ :=
      if 2 * r < q then t
      else if q < 2 * r then t + 1
      else if t % 2 = 0 then t else t + 1
    ⟨if neg then -(mAbs : ℤ) else (mAbs : ℤ), E - 52⟩

/-- The exact rational value of a binary64 value. -/
def FP.val (x : FP) : ℚ :=
  if 0 ≤ x.e then Rat.divInt (x.m * pow2Z x.e.toNat) 1
  else Rat.divInt x.m (pow2Z (-x.e).toNat)

/-- Binary64 division `x / y`: round the exact quotient. -/
def fdiv (x y : FP) : FP :=
  let k : ℤ := x.e - y.e
  if 0 ≤ k then fpRoundRat (x.m * pow2Z k.toNat) y.m
  else fpRoundRat x.m (y.m * pow2Z (-k).toNat)

/-- Binary64 subtraction `x - y`: the exact difference is dyadic; round
its integer part and restore the shared exponent. -/
def fsub (x y : FP) : FP :=
  let e : ℤ := if x.e ≤ y.e then x.e else y.e
  let m : ℤ := x.m * pow2Z (x.e - e).toNat - y.m * pow2Z (y.e - e).toNat
  let r := fpRoundRat m 1
  ⟨r.m, r.e + e⟩

/-- `Math.abs` on a double is exact: negate the significand. -/
def FP.abs (x : FP) : FP := ⟨(x.m.natAbs : ℤ), x.e⟩

/-- The exact binary64 representation of a (small) integer, as produced
by `Number` on the validated width/height inputs and the ratio parts. -/
def FP.ofInt (n : ℤ) : FP := ⟨n, 0⟩

/-- `string.split(c)` on the character list of a string. -/
def splitOnChar (c : Char) : List Char → List (List Char)
  | [] => [[]]
  | x :: xs =>
    let r := splitOnChar c xs
    if x = c then [] :: r
    else
      match r with
      | [] => [[x]]
      | y :: ys => (x :: y) :: ys

/-- `Number` on a string of decimal digits. -/
def digitsVal (l : List Char) : Option ℕ :=
  l.foldl
    (fun acc c =>
      match acc with
      | none => none
      | some a => if c.isDigit then some (a * 10 + (c.toNat - 48)) else none)
    (some 0)

/- ------------------------------------------------------------------ -/
/- Aspect-ratio normalizer (restyle route)                             -/
/- ------------------------------------------------------------------ -/

/-- The fixed list of ratios the render service accepts, in source order. -/
def SUPPORTED_RATIOS : List String :=
  ["21:9", "16:9", "4:3", "3:2", "1:1", "2:3", "3:4", "9:16", "9:21"]

/-- Numeric value of a ratio string — `ratio.split(":").map(Number)` then
the double division `w / h`. -/
def ratioValue (r : String) : FP :=
  match (splitOnChar ':' r.data).map digitsVal with
  | [some w, some h] => fdiv (FP.ofInt w) (FP.ofInt h)
  | _ => ⟨0, 0⟩

/-- The exact rational value of the double `Math.abs(w / h - target)`
computed by the loop body for a candidate ratio.  The loop's
`diff < bestDiff` comparison of doubles is exact on these values. -/
def diffAt (target : FP) (r : String) : ℚ :=
  ((fsub (ratioValue r) target).abs).val

/-- One iteration of the `for (const ratio of SUPPORTED_RATIOS)` loop in
`closestAspectRatio`.  The accumulator is `(best, bestDiff)`; `bestDiff`
starts as `Infinity`, modelled by `none`. -/
def closerStep (target : FP) : String × Option ℚ → String → String × Option ℚ
  | (_, none), ratio => (ratio, some (diffAt target ratio))
  | (best, some bestDiff), ratio =>
    if diffAt target ratio < bestDiff then (ratio, some (diffAt target ratio))
    else (best, some bestDiff)

/-- Embedding of `closestAspectRatio(width, height)`: the target is the
double division `width / height` (validated inputs are integers, which
binary64 represents exactly), and the loop body folds over
`SUPPORTED_RATIOS` starting from `best = "1:1"`, `bestDiff = Infinity`. -/
def closestAspectRatio (width height : ℤ) : String :=
  (SUPPORTED_RATIOS.foldl (closerStep (fdiv (FP.ofInt width) (FP.ofInt height)))
    ("1:1", none)).1

/-- The loop of `closestAspectRatio` once the first candidate has been
installed as the current best: used to reason about the fold. -/
def runClosest (t : FP) (b : String) (l : List String) : String :=
  (l.foldl (closerStep t) (b, some (diffAt t b))).1

/- ------------------------------------------------------------------ -/
/- Orientation hints (wallpaper route)                                 -/
/- ------------------------------------------------------------------ -/

/-- Embedding of the `orientation` ternary in `generatePromptWithGemini`:
the label interpolated into the Gemini user message. -/
def orientation (width height : Nat) : String :=
  if height > width then "portrait/vertical (tall)"
  else if width > height then "landscape/horizontal (wide)"
  else "square"

/-- Embedding of the `orientationHint` ternary in the POST /wallpaper
handler: the framing instruction appended to the composition string. -/
def orientationHint (width height : Nat) : String :=
  if height > width then
    "Vertical portrait framing—platform fully contained, centered, with sky above and below."
  else if width > height then
    "Horizontal landscape framing—platform fully contained, centered."
  else "Square framing—platform centered with equal margin."

/- ------------------------------------------------------------------ -/
/- Data model: subjects, hardcoded style, composed prompt              -/
/- ------------------------------------------------------------------ -/

/-- A prompt subject: the four mandatory fields of each `subjects` entry. -/
structure Subject where
  type : String
  description : String
  pose : String
  position : String
deriving DecidableEq

/-- Hardcoded platform subject — ensures consistent appearance across all
generations (verbatim from the source constants). -/
def PLATFORM_SUBJECT : Subject :=
  { type := "Platform"
    description := "Thin slim square platform with rounded corners, minimal vertical thickness like a flat slab or tile, light gray or off-white concrete texture. Entire platform fully visible within frame—all sides and corners contained, no cropping."
    pose := "Horizontal base"
    position := "Center of composition, floating in clear sky, fully framed within image boundaries" }

/-- Hardcoded urban layout — roads, nature; no people or vehicles. -/
def URBAN_LAYOUT_SUBJECT : Subject :=
  { type := "UrbanLayout"
    description := "Light gray roads or pathways connecting landmarks on the platform. Stylized green trees and small park areas along paths. City miniature feel. No people, cars, buses, or small figures."
    pose := "Flat on platform surface"
    position := "On platform surface, between and around landmarks" }

/-- The camera descriptor of `HARDCODED_STYLE.camera`. -/
structure Camera where
  angle : String
  distance : String
  lens : String
deriving DecidableEq

/-- Shape of the `HARDCODED_STYLE` constant object. -/
structure StyleConstants where
  style : String
  composition : String
  camera : Camera
  platform : String
  environment : String
deriving DecidableEq

/-- Hardcoded style constants — never change, ensures visual consistency. -/
def HARDCODED_STYLE : StyleConstants :=
  { style := "Isometric 3D render, orthographic view, claymorphism, soft global illumination, Octane render, cute, miniature world, high fidelity, 4k"
    composition := "Isometric centered. Platform fully contained—entire platform visible within frame, no edges cut off, margin from image borders."
    camera :=
      { angle := "high angle isometric view (approx 45 degrees)"
        distance := "pulled back so the entire platform fits within frame with margin, full object visibility"
        lens := "50mm orthographic" }
    platform := "Thin slim platform base, minimal thickness, thin slab, NOT thick or chunky. Platform size consistent. ENTIRE platform FULLY visible within image—all edges and corners contained, no cropping or cut-off. Centered with margin from frame edges."
    environment := "Clouds and sky above and behind the city. Clear empty void below the platform. Volumetric clouds in upper sky only." }

/-- The declared interface `GeminiDynamicFields`: the five dynamic fields a
schema-conformant language-model response carries. -/
structure GeminiDynamicFields where
  scene : String
  subjects : List Subject
  color_palette : List String
  lighting : String
  mood : String
deriving DecidableEq

/-- A value of one field of the composed prompt object. -/
inductive PromptValue where
  | str (s : String)
  | subjectList (l : List Subject)
  | strList (l : List String)
  | cam (c : Camera)
deriving DecidableEq

/-- Embedding of the `fullPrompt` object literal of the POST /wallpaper
handler.  A JavaScript object literal with string keys preserves insertion
order, so the composed prompt is modelled as the ordered association list
of its fields, exactly as written in the source. -/
def fullPrompt (g : GeminiDynamicFields) (width height : Nat) :
    List (String × PromptValue) :=
  [("scene", .str g.scene),
   ("subjects", .subjectList (PLATFORM_SUBJECT :: URBAN_LAYOUT_SUBJECT :: g.subjects)),
   ("color_palette", .strList g.color_palette),
   ("lighting", .str g.lighting),
   ("mood", .str g.mood),
   ("style", .str HARDCODED_STYLE.style),
   ("composition", .str (HARDCODED_STYLE.composition ++ " " ++ orientationHint width height)),
   ("camera", .cam HARDCODED_STYLE.camera),
   ("platform", .str HARDCODED_STYLE.platform),
   ("environment", .str HARDCODED_STYLE.environment)]

/- ------------------------------------------------------------------ -/
/- Gemini call: generatePromptWithGemini                               -/
/- ------------------------------------------------------------------ -/

/-- What `JSON.parse(text) as GeminiDynamicFields` actually yields at
runtime: every field may be absent (`undefined`), since the cast performs
no checks.  `none` models an absent field. -/
structure GeminiParsed where
  scene : Option String
  subjects : Option (List Subject)
  color_palette : Option (List String)
  lighting : Option String
  mood : Option String
deriving DecidableEq

/-- Outcome of the external effects inside `generatePromptWithGemini`,
passed in as data: the HTTP response (`ok`, `status`, error body), the
extracted `data.candidates?.[0]?.content?.parts?.[0]?.text` payload, and
the outcome of `JSON.parse` on that payload (`none` = the parse threw,
with the thrown message in `parseErrorMsg`). -/
structure GeminiUpstream where
  ok : Bool
  status : Int
  errorBody : String
  text : Option String
  parseResult : Option GeminiParsed
  parseErrorMsg : String
deriving DecidableEq

/-- The three ways `generatePromptWithGemini` throws. -/
inductive GeminiError where
  | apiError (status : Int) (body : String)
  | emptyResponse
  | malformedResponse (msg : String)
deriving DecidableEq

/-- The `.message` of the `Error` thrown for each failure mode. -/
def geminiErrorMessage : GeminiError → String
  | .apiError status body => "Gemini API returned " ++ toString status ++ ": " ++ body
  | .emptyResponse => "Gemini returned an empty response"
  | .malformedResponse msg => msg

/-- Embedding of `generatePromptWithGemini`: non-ok response → throw with
status and body; missing or empty text payload (`if (!text)`) → throw
"empty response"; `JSON.parse` failure → that error propagates; otherwise
the parsed value is returned as-is, with no further validation. -/
def generatePromptWithGemini (u : GeminiUpstream) :
    Except GeminiError GeminiParsed :=
  if u.ok = false then .error (.apiError u.status u.errorBody)
  else
    match u.text with
    | none => .error .emptyResponse
    | some t =>
      if t = "" then .error .emptyResponse
      else
        match u.parseResult with
        | none => .error (.malformedResponse u.parseErrorMsg)
        | some v => .ok v

/- ------------------------------------------------------------------ -/
/- fal.ai queue model                                                  -/
/- ------------------------------------------------------------------ -/

/-- A thrown upstream/transport error: `message = some m` models an
`Error` instance with message `m` (`none` models a non-Error throw), and
`statusCode = some s` models `typeof err.status === "number"`. -/
structure UpstreamError where
  message : Option String
  statusCode : Option Int
deriving DecidableEq

/-- `err instanceof Error ? err.message : fallback`. -/
def upstreamMessage (e : UpstreamError) (fallback : String) : String :=
  e.message.getD fallback

/-- `typeof err.status === "number" ? err.status : 500`. -/
def upstreamStatusCode (e : UpstreamError) : Int :=
  e.statusCode.getD 500

/-- One image entry of a fal.ai result payload. -/
structure FalImage where
  url : String
  content_type : Option String
deriving DecidableEq

/-- A fal.ai result payload: `result.data as { images?: Image[] }`. -/
structure FalResult where
  images : Option (List FalImage)
deriving DecidableEq

/-- `data.images?.[0]?.url`. -/
def firstImageUrl (r : FalResult) : Option String :=
  (r.images.getD []).head?.map FalImage.url

/-- A fal.ai queue status payload: its `status` string and, when the
`"queue_position" in status` check succeeds, that field. -/
structure FalStatusResponse where
  status : String
  queue_position : Option Int
deriving DecidableEq

/-- Return value of `getQueueStatus`: either a status object (optional
fields modelled by `Option`, `none` = absent from the JSON response) or
an `{error, status}` object. -/
inductive QueueOutcome where
  | ok (status : String) (queue_position : Option Int) (image_url : Option String)
  | err (message : String) (status : Int)
deriving DecidableEq

/-- Embedding of `getQueueStatus`.  The two upstream calls are passed in
as their outcomes (`statusCall` for `fal.queue.status`, `resultCall` for
`fal.queue.result`); the returned `Nat` counts how many times
`fal.queue.result` is actually invoked on this code path. -/
def getQueueStatus (statusCall : Except UpstreamError FalStatusResponse)
    (resultCall : Except UpstreamError FalResult) : QueueOutcome × Nat :=
  match statusCall with
  | .error e =>
    (.err (upstreamMessage e "Failed to get queue status") (upstreamStatusCode e), 0)
  | .ok st =>
    let queuePosition : Option Int :=
      if st.status = "IN_QUEUE" then st.queue_position else none
    if st.status = "COMPLETED" then
      match resultCall with
      | .error e =>
        (.err (upstreamMessage e "Failed to get queue status") (upstreamStatusCode e), 1)
      | .ok r => (.ok st.status queuePosition (firstImageUrl r), 1)
    else (.ok st.status queuePosition none, 0)

/- ------------------------------------------------------------------ -/
/- HTTP routes                                                         -/
/- ------------------------------------------------------------------ -/

/-- Response of GET /wallpaper/status/:requestId (after the non-empty
requestId guard): either an error JSON with a chosen HTTP status, or the
outcome object serialized with HTTP 200 (absent optional fields modelled
by `none`). -/
inductive StatusRouteResponse where
  | errorJson (httpStatus : Int) (error : String)
  | okJson (status : String) (queue_position : Option Int) (image_url : Option String)
deriving DecidableEq

/-- Embedding of the GET /wallpaper/status/:requestId handler body. -/
def statusRoute (statusCall : Except UpstreamError FalStatusResponse)
    (resultCall : Except UpstreamError FalResult) : StatusRouteResponse :=
  match (getQueueStatus statusCall resultCall).1 with
  | .err msg s =>
    .errorJson (if s ≠ 0 ∧ 400 ≤ s ∧ s < 600 then s else 500) msg
  | .ok st qp iu => .okJson st qp iu

/-- JavaScript `a || b` on an optional string: `undefined` and `""` are
falsy. -/
def jsOrString (a : Option String) (b : String) : String :=
  match a with
  | none => b
  | some s => if s = "" then b else s

/-- Outcome of `fetch(image.url)` against the CDN: whether the response
was ok and its Content-Type header. -/
structure CdnFetch where
  ok : Bool
  contentTypeHeader : Option String
deriving DecidableEq

/-- Response of GET /wallpaper/result/:requestId (after the non-empty
requestId guard): a streamed image (HTTP 200) with its Content-Type, the
202 not-ready JSON `{status: "IN_PROGRESS", message}`, or an error JSON. -/
inductive ResultRouteResponse where
  | imageStream (contentType : String)
  | inProgress
  | errorJson (httpStatus : Int) (error : String)
deriving DecidableEq

/-- Embedding of the GET /wallpaper/result/:requestId handler body:
`resultCall` is the outcome of `fal.queue.result`, `cdn` the outcome of
the CDN fetch performed when an image is present. -/
def resultRoute (resultCall : Except UpstreamError FalResult)
    (cdn : CdnFetch) : ResultRouteResponse :=
  match resultCall with
  | .ok result =>
    match result.images with
    | none => .errorJson 500 "No image was generated by the model"
    | some [] => .errorJson 500 "No image was generated by the model"
    | some (image :: _) =>
      if cdn.ok = false then
        .errorJson 502 "Failed to fetch the generated image from CDN"
      else
        .imageStream (jsOrString image.content_type
          (jsOrString cdn.contentTypeHeader "image/png"))
  | .error e =>
    let status := upstreamStatusCode e
    if status = 400 then .inProgress
    else
      .errorJson (if 400 ≤ status ∧ status < 600 then status else 500)
        (upstreamMessage e "Failed to get result")

/-- The fal model identifier used by the wallpaper route. -/
def FAL_MODEL : String := "fal-ai/flux-2-pro"

/-- Fallback status URL built when `queueStatus.status_url` is nullish. -/
def defaultStatusUrl (requestId : String) : String :=
  "https://queue.fal.run/" ++ FAL_MODEL ++ "/requests/" ++ requestId ++ "/status"

/-- Fallback response URL built when `queueStatus.response_url` is nullish. -/
def defaultResponseUrl (requestId : String) : String :=
  "https://queue.fal.run/" ++ FAL_MODEL ++ "/requests/" ++ requestId

/-- A `fal.queue.submit` success payload. -/
structure QueueSubmitResponse where
  request_id : String
  status_url : Option String
  response_url : Option String
deriving DecidableEq

/-- Response of POST /wallpaper (after body parsing, schema validation and
key extraction): the 202 queued JSON, the 502 prompt-generation failure,
a queue-submission failure with its HTTP status, or the unhandled
TypeError thrown by spreading an absent `geminiResult.subjects`. -/
inductive PostRouteResponse where
  | queued (request_id : String) (status_url : String) (response_url : String)
  | promptGenerationFailed (httpStatus : Int) (message : String)
  | queueSubmissionFailed (httpStatus : Int) (message : String)
  | unhandledException
deriving DecidableEq

/-- Embedding of the POST /wallpaper handler from step 1 on: calls
`generatePromptWithGemini` once (outcome `u`), and on success submits the
composed prompt to the fal queue once (outcome `falSubmit`).  The two
`Nat`s count the Gemini calls and the `fal.queue.submit` calls performed
on the taken path. -/
def wallpaperPost (u : GeminiUpstream)
    (falSubmit : Except UpstreamError QueueSubmitResponse) :
    PostRouteResponse × Nat × Nat :=
  match generatePromptWithGemini u with
  | .error e => (.promptGenerationFailed 502 (geminiErrorMessage e), 1, 0)
  | .ok g =>
    match g.subjects with
    | none => (.unhandledException, 1, 0)
    | some _ =>
      match falSubmit with
      | .ok q =>
        (.queued q.request_id (q.status_url.getD (defaultStatusUrl q.request_id))
          (q.response_url.getD (defaultResponseUrl q.request_id)), 1, 1)
      | .error e =>
        let s := upstreamStatusCode e
        (.queueSubmissionFailed (if 400 ≤ s ∧ s < 600 then s else 500)
          (upstreamMessage e "Failed to queue image generation"), 1, 1)

end Wall

namespace Wall

/- ------------------------------------------------------------------ -/
/- Theorems: aspect-ratio normalizer (C4)                              -/
/- ------------------------------------------------------------------ -/

theorem closestAspectRatio_eq_runClosest (width height : ℤ) :
    closestAspectRatio width height =
      runClosest (fdiv (FP.ofInt width) (FP.ofInt height)) "21:9"
        ["16:9", "4:3", "3:2", "1:1", "2:3", "3:4", "9:16", "9:21"] := rfl

theorem runClosest_first_min (t : FP) (l : List String) : ∀ b : String,
    (runClosest t b l = b ∧ ∀ x ∈ l, diffAt t b ≤ diffAt t x) ∨
    (∃ l₁ l₂, l = l₁ ++ runClosest t b l :: l₂ ∧
      diffAt t (runClosest t b l) < diffAt t b ∧
      (∀ x ∈ l₁, diffAt t (runClosest t b l) < diffAt t x) ∧
      (∀ x ∈ l₂, diffAt t (runClosest t b l) ≤ diffAt t x)) := by
  induction l with
  | nil =>
    intro b
    refine Or.inl ⟨rfl, ?_⟩
    intro x hx
    simp at hx
  | cons x xs ih =>
    intro b
    have hstep : runClosest t b (x :: xs) =
        if diffAt t x < diffAt t b then runClosest t x xs
        else runClosest t b xs := by
      by_cases h : diffAt t x < diffAt t b <;>
        simp [runClosest, closerStep, h]
    by_cases h : diffAt t x < diffAt t b
    · rw [hstep, if_pos h]
      rcases ih x with ⟨he, hall⟩ | ⟨l₁, l₂, heq, hlt, h₁, h₂⟩
      · rw [he]
        refine Or.inr ⟨[], xs, rfl, h, ?_, hall⟩
        intro y hy
        simp at hy
      · refine Or.inr ⟨x :: l₁, l₂, ?_, hlt.trans h, ?_, h₂⟩
        · rw [List.cons_append, ← heq]
        · intro y hy
          rcases List.mem_cons.mp hy with hyx | hyl
          · rw [hyx]; exact hlt
          · exact h₁ y hyl
    · rw [hstep, if_neg h]
      have hbx : diffAt t b ≤ diffAt t x := not_lt.mp h
      rcases ih b with ⟨he, hall⟩ | ⟨l₁, l₂, heq, hlt, h₁, h₂⟩
      · refine Or.inl ⟨he, ?_⟩
        intro y hy
        rcases List.mem_cons.mp hy with hyx | hyl
        · rw [hyx]; exact hbx
        · exact hall y hyl
      · refine Or.inr ⟨x :: l₁, l₂, ?_, hlt, ?_, h₂⟩
        · rw [List.cons_append, ← heq]
        · intro y hy
          rcases List.mem_cons.mp hy with hyx | hyl
          · rw [hyx]; exact hlt.trans_le hbx
          · exact h₁ y hyl

/-- C4 counterexample: at the schema-valid input 816×576 the exact
differences `|w/h − width/height|` of "4:3" and "3:2" tie (both are 1/12)
and "4:3" has the smaller index, yet `closestAspectRatio` returns "3:2":
the claim's exact-arithmetic smallest-index tie-break is false of the
program, because the code computes the differences in binary64, where
the tie does not survive rounding. -/
theorem closestAspectRatio_exact_tiebreak_fails :
    closestAspectRatio 816 576 = "3:2" ∧
    |(4 : ℚ) / 3 - 816 / 576| = |(3 : ℚ) / 2 - 816 / 576| ∧
    SUPPORTED_RATIOS.indexOf "4:3" < SUPPORTED_RATIOS.indexOf "3:2" :=
  ⟨by decide, by norm_num, by decide⟩

/-- C4 (amended): for every width/height pair, `closestAspectRatio`
returns exactly one ratio string from `SUPPORTED_RATIOS`; no ratio in the
list has a strictly smaller difference `|w/h − width/height|` as the code
computes it — in binary64 double precision — than the returned one; and
every ratio listed strictly before the returned one (i.e. with a smaller
index) has a strictly larger computed difference, so on a tie in the
computed differences the ratio with the smallest index is returned. -/
theorem closestAspectRatio_min_first (width height : ℤ) :
    closestAspectRatio width height ∈ SUPPORTED_RATIOS ∧
    (∀ r ∈ SUPPORTED_RATIOS,
      diffAt (fdiv (FP.ofInt width) (FP.ofInt height))
          (closestAspectRatio width height) ≤
        diffAt (fdiv (FP.ofInt width) (FP.ofInt height)) r) ∧
    ∃ l₁ l₂, SUPPORTED_RATIOS = l₁ ++ closestAspectRatio width height :: l₂ ∧
      ∀ r ∈ l₁,
        diffAt (fdiv (FP.ofInt width) (FP.ofInt height))
            (closestAspectRatio width height) <
          diffAt (fdiv (FP.ofInt width) (FP.ofInt height)) r := by
  have hsup : SUPPORTED_RATIOS =
      "21:9" :: ["16:9", "4:3", "3:2", "1:1", "2:3", "3:4", "9:16", "9:21"] := rfl
  have hrun := runClosest_first_min (fdiv (FP.ofInt width) (FP.ofInt height))
    ["16:9", "4:3", "3:2", "1:1", "2:3", "3:4", "9:16", "9:21"] "21:9"
  rw [closestAspectRatio_eq_runClosest]
  rcases hrun with ⟨he, hall⟩ | ⟨l₁, l₂, heq, hlt, h₁, h₂⟩
  · rw [he]
    refine ⟨by decide, ?_,
      ⟨[], ["16:9", "4:3", "3:2", "1:1", "2:3", "3:4", "9:16", "9:21"],
        hsup, ?_⟩⟩
    · intro r hr
      rw [hsup] at hr
      rcases List.mem_cons.mp hr with rfl | h8
      · exact le_refl _
      · exact hall r h8
    · intro r hr
      simp at hr
  · have hres : runClosest (fdiv (FP.ofInt width) (FP.ofInt height)) "21:9"
        ["16:9", "4:3", "3:2", "1:1", "2:3", "3:4", "9:16", "9:21"] ∈
        ["16:9", "4:3", "3:2", "1:1", "2:3", "3:4", "9:16", "9:21"] := by
      have h0 : runClosest (fdiv (FP.ofInt width) (FP.ofInt height)) "21:9"
          ["16:9", "4:3", "3:2", "1:1", "2:3", "3:4", "9:16", "9:21"] ∈
          l₁ ++ runClosest (fdiv (FP.ofInt width) (FP.ofInt height)) "21:9"
            ["16:9", "4:3", "3:2", "1:1", "2:3", "3:4", "9:16", "9:21"] :: l₂ :=
        List.mem_append.mpr (Or.inr (List.mem_cons_self _ _))
      rw [← heq] at h0
      exact h0
    have hmem : runClosest (fdiv (FP.ofInt width) (FP.ofInt height)) "21:9"
        ["16:9", "4:3", "3:2", "1:1", "2:3", "3:4", "9:16", "9:21"] ∈
        SUPPORTED_RATIOS := by
      rw [hsup]
      exact List.mem_cons_of_mem _ hres
    refine ⟨hmem, ?_, ⟨"21:9" :: l₁, l₂, ?_, ?_⟩⟩
    · intro r hr
      rw [hsup] at hr
      rcases List.mem_cons.mp hr with rfl | h8
      · exact hlt.le
      · rw [heq] at h8
        rcases List.mem_append.mp h8 with hr₁ | hr₂
        · exact (h₁ r hr₁).le
        · rcases List.mem_cons.mp hr₂ with rfl | hrl₂
          · exact le_refl _
          · exact h₂ r hrl₂
    · rw [hsup, List.cons_append, ← heq]
    · intro r hr
      rcases List.mem_cons.mp hr with rfl | hrl
      · exact hlt
      · exact h₁ r hrl

/- ------------------------------------------------------------------ -/
/- Theorems: orientation hints (C7)                                    -/
/- ------------------------------------------------------------------ -/

/-- C7: for every width/height pair the orientation hint is the portrait
framing instruction iff height > width, the landscape instruction iff
width > height, and the square instruction iff width = height; the same
trichotomy holds for the orientation label sent to the language model.
The three cases are exhaustive and mutually exclusive. -/
theorem orientationHint_trichotomy (width height : Nat) :
    (orientationHint width height =
        "Vertical portrait framing—platform fully contained, centered, with sky above and below."
      ↔ height > width) ∧
    (orientationHint width height =
        "Horizontal landscape framing—platform fully contained, centered."
      ↔ width > height) ∧
    (orientationHint width height =
        "Square framing—platform centered with equal margin."
      ↔ width = height) ∧
    (orientation width height = "portrait/vertical (tall)" ↔ height > width) ∧
    (orientation width height = "landscape/horizontal (wide)" ↔ width > height) ∧
    (orientation width height = "square" ↔ width = height) := by
  rcases Nat.lt_trichotomy width height with hlt | heq | hgt
  · have e1 : orientationHint width height =
        "Vertical portrait framing—platform fully contained, centered, with sky above and below." := by
      unfold orientationHint
      rw [if_pos hlt]
    have e2 : orientation width height = "portrait/vertical (tall)" := by
      unfold orientation
      rw [if_pos hlt]
    rw [e1, e2]
    exact ⟨iff_of_true rfl hlt,
      iff_of_false (by decide) (by omega),
      iff_of_false (by decide) (by omega),
      iff_of_true rfl hlt,
      iff_of_false (by decide) (by omega),
      iff_of_false (by decide) (by omega)⟩
  · have h1 : ¬ height > width := by omega
    have h2 : ¬ width > height := by omega
    have e1 : orientationHint width height =
        "Square framing—platform centered with equal margin." := by
      unfold orientationHint
      rw [if_neg h1, if_neg h2]
    have e2 : orientation width height = "square" := by
      unfold orientation
      rw [if_neg h1, if_neg h2]
    rw [e1, e2]
    exact ⟨iff_of_false (by decide) h1,
      iff_of_false (by decide) h2,
      iff_of_true rfl heq,
      iff_of_false (by decide) h1,
      iff_of_false (by decide) h2,
      iff_of_true rfl heq⟩
  · have h1 : ¬ height > width := by omega
    have e1 : orientationHint width height =
        "Horizontal landscape framing—platform fully contained, centered." := by
      unfold orientationHint
      rw [if_neg h1, if_pos hgt]
    have e2 : orientation width height = "landscape/horizontal (wide)" := by
      unfold orientation
      rw [if_neg h1, if_pos hgt]
    rw [e1, e2]
    exact ⟨iff_of_false (by decide) h1,
      iff_of_true rfl hgt,
      iff_of_false (by decide) (by omega),
      iff_of_false (by decide) h1,
      iff_of_true rfl hgt,
      iff_of_false (by decide) (by omega)⟩

/- ------------------------------------------------------------------ -/
/- Theorems: prompt composition (C3)                                   -/
/- ------------------------------------------------------------------ -/

/-- C3: for every successful prompt synthesis the composed prompt consists
of exactly ten fields in the source order — scene, subjects,
color_palette, lighting, mood, style, composition, camera, platform,
environment; its subject list is the fixed platform subject, then the
fixed urban-layout subject, then exactly the model-produced subjects in
their original order (no reordering, no deduplication); and its
composition string is the fixed composition text followed by the
orientation hint. -/
theorem fullPrompt_composition (g : GeminiDynamicFields) (width height : Nat) :
    (fullPrompt g width height).length = 10 ∧
    (fullPrompt g width height).get? 0 = some ("scene", .str g.scene) ∧
    (fullPrompt g width height).get? 1 =
      some ("subjects",
        .subjectList (PLATFORM_SUBJECT :: URBAN_LAYOUT_SUBJECT :: g.subjects)) ∧
    (fullPrompt g width height).get? 2 =
      some ("color_palette", .strList g.color_palette) ∧
    (fullPrompt g width height).get? 3 = some ("lighting", .str g.lighting) ∧
    (fullPrompt g width height).get? 4 = some ("mood", .str g.mood) ∧
    (fullPrompt g width height).get? 5 =
      some ("style", .str HARDCODED_STYLE.style) ∧
    (fullPrompt g width height).get? 6 =
      some ("composition",
        .str (HARDCODED_STYLE.composition ++ " " ++ orientationHint width height)) ∧
    (fullPrompt g width height).get? 7 =
      some ("camera", .cam HARDCODED_STYLE.camera) ∧
    (fullPrompt g width height).get? 8 =
      some ("platform", .str HARDCODED_STYLE.platform) ∧
    (fullPrompt g width height).get? 9 =
      some ("environment", .str HARDCODED_STYLE.environment) :=
  ⟨rfl, rfl, rfl, rfl, rfl, rfl, rfl, rfl, rfl, rfl, rfl⟩

/- ------------------------------------------------------------------ -/
/- Theorems: Gemini response handling (C2, C9)                         -/
/- ------------------------------------------------------------------ -/

/-- C2 counterexample: a text payload that parses as JSON but is missing
`color_palette` and `mood`, and whose subject list contains no
Environment-kind entry, is accepted and returned successfully by the
prompt-synthesis step — not rejected with a malformed-response error. -/
theorem generatePrompt_missing_fields_accepted :
    generatePromptWithGemini
      ⟨true, 200, "",
        some "\x7b\"scene\":\"A toy city\",\"subjects\":[\x7b\"type\":\"Landmark\",\"description\":\"Eiffel Tower\",\"pose\":\"static\",\"position\":\"center\"\x7d],\"lighting\":\"soft light\"\x7d",
        some ⟨some "A toy city",
          some [⟨"Landmark", "Eiffel Tower", "static", "center"⟩],
          none, some "soft light", none⟩, ""⟩ =
      Except.ok
        ⟨some "A toy city",
          some [⟨"Landmark", "Eiffel Tower", "static", "center"⟩],
          none, some "soft light", none⟩ := rfl

/-- C2 (amended): the prompt-synthesis step performs no structural
validation after parsing — any text payload that parses as JSON is
returned exactly as parsed, even with `subjects`, `color_palette`,
`lighting` or `mood` absent and regardless of the Landmark/Environment
content of the subject list; only an unparseable payload fails. -/
theorem generatePrompt_accepts_parsed_asIs (u : GeminiUpstream) (t : String)
    (v : GeminiParsed) (hok : u.ok = true) (ht : u.text = some t)
    (hne : t ≠ "") (hp : u.parseResult = some v) :
    generatePromptWithGemini u = Except.ok v := by
  simp [generatePromptWithGemini, hok, ht, hne, hp]

/-- C2 amended witness: a response parsing to the empty JSON object (all
five fields absent) is accepted unchanged. -/
theorem generatePrompt_accepts_parsed_asIs_witness :
    generatePromptWithGemini
      ⟨true, 200, "", some "\x7b\x7d", some ⟨none, none, none, none, none⟩, ""⟩ =
      Except.ok ⟨none, none, none, none, none⟩ :=
  generatePrompt_accepts_parsed_asIs _ "\x7b\x7d" _ rfl rfl (by decide) rfl

/-- C9: a non-success service response, a missing (or empty) text payload,
and an unparseable text payload each make `generatePromptWithGemini` fail
with the corresponding error; in that case the route performs exactly one
Gemini call and no queue submission, and answers with the single 502
"Prompt generation failed" response, which is distinct from every
queue-submission (render) failure response. -/
theorem geminiFailures_propagate (u : GeminiUpstream)
    (falSubmit : Except UpstreamError QueueSubmitResponse) :
    (u.ok = false →
      generatePromptWithGemini u = .error (.apiError u.status u.errorBody)) ∧
    (u.ok = true → u.text = none ∨ u.text = some "" →
      generatePromptWithGemini u = .error .emptyResponse) ∧
    (u.ok = true → ∀ t, u.text = some t → t ≠ "" → u.parseResult = none →
      generatePromptWithGemini u = .error (.malformedResponse u.parseErrorMsg)) ∧
    (∀ e, generatePromptWithGemini u = .error e →
      wallpaperPost u falSubmit =
        (.promptGenerationFailed 502 (geminiErrorMessage e), 1, 0) ∧
      ∀ s m, PostRouteResponse.promptGenerationFailed 502 (geminiErrorMessage e) ≠
        PostRouteResponse.queueSubmissionFailed s m) := by
  refine ⟨?_, ?_, ?_, ?_⟩
  · intro hok
    simp [generatePromptWithGemini, hok]
  · intro hok ht
    rcases ht with ht | ht <;> simp [generatePromptWithGemini, hok, ht]
  · intro hok t ht hne hp
    simp [generatePromptWithGemini, hok, ht, hne, hp]
  · intro e he
    refine ⟨by simp [wallpaperPost, he], ?_⟩
    intro s m hcontra
    exact PostRouteResponse.noConfusion hcontra

/-- C9 witness: a 503 from the language-model service propagates as the
502 prompt-generation failure, with one Gemini call and no submission. -/
theorem geminiFailures_propagate_witness :
    wallpaperPost ⟨false, 503, "Service Unavailable", none, none, ""⟩
        (Except.error ⟨none, none⟩) =
      (PostRouteResponse.promptGenerationFailed 502
        (geminiErrorMessage (.apiError 503 "Service Unavailable")), 1, 0) :=
  ((geminiFailures_propagate ⟨false, 503, "Service Unavailable", none, none, ""⟩
      (Except.error ⟨none, none⟩)).2.2.2 _
    ((geminiFailures_propagate ⟨false, 503, "Service Unavailable", none, none, ""⟩
      (Except.error ⟨none, none⟩)).1 rfl)).1

/- ------------------------------------------------------------------ -/
/- Theorems: status tracking (C5, C6, C8, C10)                         -/
/- ------------------------------------------------------------------ -/

/-- C5: when the upstream status is COMPLETED the tracker performs
exactly one result fetch in the same call; a successful fetch yields the
completed status with the first image's URL attached; a failing fetch
makes the whole status query return an error outcome instead of a
completed status. -/
theorem completed_fetches_result_once
    (statusCall : Except UpstreamError FalStatusResponse)
    (resultCall : Except UpstreamError FalResult) (st : FalStatusResponse)
    (hok : statusCall = Except.ok st) (hc : st.status = "COMPLETED") :
    (getQueueStatus statusCall resultCall).2 = 1 ∧
    (∀ r img rest, resultCall = Except.ok r → r.images = some (img :: rest) →
      (getQueueStatus statusCall resultCall).1 =
        QueueOutcome.ok "COMPLETED" none (some img.url)) ∧
    (∀ e, resultCall = Except.error e →
      (getQueueStatus statusCall resultCall).1 =
        QueueOutcome.err (upstreamMessage e "Failed to get queue status")
          (upstreamStatusCode e)) := by
  subst hok
  refine ⟨?_, ?_, ?_⟩
  · cases resultCall <;> simp [getQueueStatus, hc]
  · intro r img rest hr hi
    subst hr
    simp [getQueueStatus, hc, firstImageUrl, hi]
  · intro e hr
    subst hr
    simp [getQueueStatus, hc]

/-- C5 witness: a completed poll with one image performs one result fetch
and attaches that image's URL. -/
theorem completed_fetches_result_once_witness :
    (getQueueStatus (Except.ok ⟨"COMPLETED", none⟩)
        (Except.ok ⟨some [⟨"https://cdn.example/img.png", some "image/png"⟩]⟩)).2 = 1 ∧
    (getQueueStatus (Except.ok ⟨"COMPLETED", none⟩)
        (Except.ok ⟨some [⟨"https://cdn.example/img.png", some "image/png"⟩]⟩)).1 =
      QueueOutcome.ok "COMPLETED" none (some "https://cdn.example/img.png") := by
  have h := completed_fetches_result_once (Except.ok ⟨"COMPLETED", none⟩)
    (Except.ok ⟨some [⟨"https://cdn.example/img.png", some "image/png"⟩]⟩)
    ⟨"COMPLETED", none⟩ rfl rfl
  exact ⟨h.1, h.2.1 _ _ _ rfl rfl⟩

/-- C6: an upstream throw while polling is returned as an error value
(with its message and numeric status, 500 when the throw carries no
numeric status) rather than propagating as an exception, and the status
endpoint responds with the upstream status code when it lies in 400–599
and with 500 otherwise. -/
theorem pollError_surfaced (e : UpstreamError)
    (resultCall : Except UpstreamError FalResult) :
    (getQueueStatus (Except.error e) resultCall).1 =
      QueueOutcome.err (upstreamMessage e "Failed to get queue status")
        (upstreamStatusCode e) ∧
    statusRoute (Except.error e) resultCall =
      StatusRouteResponse.errorJson
        (if 400 ≤ upstreamStatusCode e ∧ upstreamStatusCode e < 600
          then upstreamStatusCode e else 500)
        (upstreamMessage e "Failed to get queue status") := by
  have hite : (if upstreamStatusCode e ≠ 0 ∧ 400 ≤ upstreamStatusCode e ∧
        upstreamStatusCode e < 600 then upstreamStatusCode e else (500 : Int)) =
      (if 400 ≤ upstreamStatusCode e ∧ upstreamStatusCode e < 600
        then upstreamStatusCode e else (500 : Int)) := by
    by_cases h4 : 400 ≤ upstreamStatusCode e ∧ upstreamStatusCode e < 600
    · rw [if_pos h4, if_pos ⟨by omega, h4⟩]
    · rw [if_neg h4, if_neg (fun hc => h4 hc.2)]
  refine ⟨rfl, ?_⟩
  calc statusRoute (Except.error e) resultCall
      = StatusRouteResponse.errorJson
          (if upstreamStatusCode e ≠ 0 ∧ 400 ≤ upstreamStatusCode e ∧
            upstreamStatusCode e < 600 then upstreamStatusCode e else 500)
          (upstreamMessage e "Failed to get queue status") := rfl
    _ = _ := by rw [hite]

/-- C8: polling a job the upstream reports as in-queue with a queue
position yields a status object carrying that position and no image URL
field; and for any upstream state other than in-queue, any successful
outcome carries no queue_position field. -/
theorem queuePosition_only_inQueue (st : FalStatusResponse)
    (resultCall : Except UpstreamError FalResult) (p : Int)
    (hq : st.status = "IN_QUEUE") (hp : st.queue_position = some p) :
    (getQueueStatus (Except.ok st) resultCall).1 =
      QueueOutcome.ok "IN_QUEUE" (some p) none ∧
    (∀ st2 : FalStatusResponse, st2.status ≠ "IN_QUEUE" →
      ∀ s qp iu, (getQueueStatus (Except.ok st2) resultCall).1 =
        QueueOutcome.ok s qp iu → qp = none) := by
  constructor
  · simp [getQueueStatus, hq, hp]
  · intro st2 hne s qp iu hout
    by_cases hc : st2.status = "COMPLETED"
    · cases resultCall with
      | error e => simp [getQueueStatus, hne, hc] at hout
      | ok r =>
        simp [getQueueStatus, hne, hc] at hout
        exact hout.2.1.symm
    · simp [getQueueStatus, hne, hc] at hout
      exact hout.2.1.symm

/-- C8 witness: the spec example — queued with position 5. -/
theorem queuePosition_only_inQueue_witness :
    (getQueueStatus (Except.ok ⟨"IN_QUEUE", some 5⟩) (Except.ok ⟨none⟩)).1 =
      QueueOutcome.ok "IN_QUEUE" (some 5) none :=
  (queuePosition_only_inQueue ⟨"IN_QUEUE", some 5⟩ (Except.ok ⟨none⟩) 5 rfl rfl).1

/-- C10: when the upstream reports COMPLETED but the fetched result
payload contains no images (absent or empty list), the status query still
succeeds: the endpoint returns the success JSON with the completed status
and no image_url field, not an error — so a completed status response
does not guarantee an image URL. -/
theorem completed_without_images_succeeds (st : FalStatusResponse)
    (r : FalResult) (hc : st.status = "COMPLETED")
    (hi : r.images = none ∨ r.images = some []) :
    (getQueueStatus (Except.ok st) (Except.ok r)).1 =
      QueueOutcome.ok "COMPLETED" none none ∧
    statusRoute (Except.ok st) (Except.ok r) =
      StatusRouteResponse.okJson "COMPLETED" none none := by
  have h1 : firstImageUrl r = none := by
    rcases hi with hi | hi <;> simp [firstImageUrl, hi]
  constructor
  · simp [getQueueStatus, hc, h1]
  · simp [statusRoute, getQueueStatus, hc, h1]

/-- C10 witness: a completed poll whose result payload has an empty image
list yields the success JSON with no image URL. -/
theorem completed_without_images_succeeds_witness :
    statusRoute (Except.ok ⟨"COMPLETED", none⟩) (Except.ok ⟨some []⟩) =
      StatusRouteResponse.okJson "COMPLETED" none none :=
  (completed_without_images_succeeds ⟨"COMPLETED", none⟩ ⟨some []⟩ rfl (Or.inr rfl)).2

/- ------------------------------------------------------------------ -/
/- Theorems: result endpoint not-ready handling (C1)                   -/
/- ------------------------------------------------------------------ -/

/-- C1 counterexample: an upstream result fetch failing with client-error
status 404 yields a 404 error response from the result endpoint, not the
202 IN_PROGRESS not-ready outcome the claim requires for every status in
400–499. -/
theorem resultRoute_404_not_inProgress :
    resultRoute (Except.error ⟨some "Request not found", some 404⟩)
        ⟨true, none⟩ =
      ResultRouteResponse.errorJson 404 "Request not found" ∧
    ResultRouteResponse.errorJson 404 "Request not found" ≠
      ResultRouteResponse.inProgress :=
  ⟨rfl, by decide⟩

/-- C1 (amended): the result endpoint returns the 202 IN_PROGRESS
not-ready outcome exactly when the upstream result fetch fails with
numeric status 400; a failure with any other status yields an error
response whose HTTP status is the upstream code when it lies in 400–599
and 500 otherwise. -/
theorem resultRoute_inProgress_iff_400 (e : UpstreamError) (cdn : CdnFetch) :
    (upstreamStatusCode e = 400 →
      resultRoute (Except.error e) cdn = ResultRouteResponse.inProgress) ∧
    (upstreamStatusCode e ≠ 400 →
      resultRoute (Except.error e) cdn =
        ResultRouteResponse.errorJson
          (if 400 ≤ upstreamStatusCode e ∧ upstreamStatusCode e < 600
            then upstreamStatusCode e else 500)
          (upstreamMessage e "Failed to get result")) := by
  constructor
  · intro h400
    simp [resultRoute, h400]
  · intro hne
    simp [resultRoute, hne]

/-- C1 amended witness: status 400 produces the IN_PROGRESS outcome. -/
theorem resultRoute_inProgress_iff_400_witness :
    resultRoute (Except.error ⟨some "Bad Request", some 400⟩) ⟨true, none⟩ =
      ResultRouteResponse.inProgress :=
  (resultRoute_inProgress_iff_400 ⟨some "Bad Request", some 400⟩ ⟨true, none⟩).1 rfl

end Wall
